import Mathlib

/-!
Shallow embedding of `pkg/plugin/twinmaker/utils.go` from
grafana-iot-twinmaker-app, together with theorems settling the frozen
claims about it.

Modelling conventions:
* Go `*string` fields that the code guards with a nil check are `Option String`;
  pointer fields the code dereferences unconditionally are plain `String`.
* Go maps that the code only iterates over (`ExternalIdProperty`,
  `e.Components`, `component.Properties`) are association lists / lists,
  preserving an iteration order.
* The remote client (`s.client`), which lives outside the embedded file, is a
  record of functions, each returning its output together with an optional
  error message, mirroring Go's two-value returns.
* The opaque time-series payload (`[]*iottwinmaker.PropertyValue`) is a type
  parameter `V`: the resolver only copies it.
-/

namespace TwinMaker

/-- Embeds `iottwinmaker.EntityPropertyReference` (the fields used by
`utils.go`): optional entity id, optional component name, the external-id
mapping as an ordered association list, and optional property name. -/
structure EntityPropertyReference where
  entityId : Option String
  componentName : Option String
  externalIdProperty : List (String × String)
  propertyName : Option String
deriving DecidableEq, Repr

/-- Embeds the external-id extraction loop that appears verbatim both in
`GetEntityPropertyReferenceKey` (utils.go:137-142) and in the resolver loop
(utils.go:178-183): take the value of the first entry of the mapping, or the
empty string when the mapping is empty. -/
def extractExternalId : List (String × String) → String
  | [] => ""
  | (_, v) :: _ => v

/-- Embeds `GetEntityPropertyReferenceKey` (utils.go:136-156): concatenate
entity id (if present) + "_", component name (if present) + "_", the extracted
external id + "_", and property name (if present). -/
def GetEntityPropertyReferenceKey (r : EntityPropertyReference) : String :=
  let externalId := extractExternalId r.externalIdProperty
  let refKey := ""
  let refKey := match r.entityId with
    | some e => refKey ++ e ++ "_"
    | none => refKey
  let refKey := match r.componentName with
    | some c => refKey ++ c ++ "_"
    | none => refKey
  let refKey := refKey ++ externalId ++ "_"
  match r.propertyName with
  | some p => refKey ++ p
  | none => refKey

/-- Embeds `models.TwinMakerListEntitiesFilter` as used in utils.go: only the
`ExternalId` field is set by the resolver. -/
structure TwinMakerListEntitiesFilter where
  externalId : String
deriving DecidableEq, Repr

/-- Embeds the fields of `models.TwinMakerQuery` that `utils.go` reads or
writes: `EntityId`, `ComponentTypeId`, `Properties`, `ListEntitiesFilter`.
All other query fields are passed through untouched and are omitted. -/
structure TwinMakerQuery where
  entityId : String
  componentTypeId : String
  properties : List String
  listEntitiesFilter : List TwinMakerListEntitiesFilter
deriving DecidableEq, Repr

/-- Embeds one `iottwinmaker.PropertyValue` batch of the history response:
opaque timestamped values plus the originating reference. -/
structure PropertyValueBatch (V : Type) where
  values : List V
  entityPropertyReference : EntityPropertyReference
deriving DecidableEq, Repr

/-- Embeds the history response (`result.PropertyValues`). -/
structure GetPropertyValueHistoryOutput (V : Type) where
  propertyValues : List (PropertyValueBatch V)
deriving DecidableEq, Repr

/-- Embeds `iottwinmaker.EntitySummary` as used in utils.go: `EntityId` is
dereferenced unconditionally (plain String), `EntityName` is stored as a
pointer without dereference (Option String). -/
structure EntitySummary where
  entityId : String
  entityName : Option String
deriving DecidableEq, Repr

/-- Embeds the `ListEntities` response (`le.EntitySummaries`). -/
structure ListEntitiesOutput where
  entitySummaries : List EntitySummary
deriving DecidableEq, Repr

/-- Embeds one property of a component response: `Definition.IsExternalId` and
`Value.StringValue`, both dereferenced unconditionally by utils.go. -/
structure ComponentProperty where
  definitionIsExternalId : Bool
  valueStringValue : String
deriving DecidableEq, Repr

/-- Embeds one component of the `GetEntity` response: `ComponentTypeId`,
`ComponentName`, and the property map as a list in iteration order. -/
structure Component where
  componentName : String
  componentTypeId : String
  properties : List ComponentProperty
deriving DecidableEq, Repr

/-- Embeds the `GetEntity` response (`e.Components`) as a list in iteration
order. -/
structure GetEntityOutput where
  components : List Component
deriving DecidableEq, Repr

/-- Embeds `data.NoticeSeverity` from the Grafana SDK (only `warning` is
produced by utils.go). -/
inductive NoticeSeverity where
  | info
  | warning
  | error
deriving DecidableEq, Repr

/-- Embeds `data.Notice`: severity plus message text. -/
structure Notice where
  severity : NoticeSeverity
  text : String
deriving DecidableEq, Repr

/-- Embeds `PropertyReference` (utils.go:158-162): the resolver's output
unit. -/
structure PropertyReference (V : Type) where
  values : List V
  entityPropertyReference : EntityPropertyReference
  entityName : Option String
deriving DecidableEq, Repr

/-- Modelled from the spec: the remote TwinMaker client consumed by the
resolver lives outside `utils.go` (interface `TwinMakerClient`); per the spec
each operation is a blocking request/response returning its output together
with an optional error, so each is a total function returning the output
record and an optional error message (Go's two-value return). -/
structure TwinMakerClient (V : Type) where
  getPropertyValueHistory : TwinMakerQuery → GetPropertyValueHistoryOutput V × Option String
  listEntities : TwinMakerQuery → ListEntitiesOutput × Option String
  getEntity : TwinMakerQuery → GetEntityOutput × Option String

/-- Embeds the inner property scan (utils.go:222-229): walk the matched
component's properties; the first property flagged `IsExternalId` whose string
value equals the external id yields the component's name (then `break`);
otherwise the accumulated name stays as it was (the empty string). -/
def scanProperties : List ComponentProperty → String → String → String
  | [], _, _ => ""
  | p :: rest, externalId, name =>
    if p.definitionIsExternalId then
      if p.valueStringValue = externalId then name
      else scanProperties rest externalId name
    else scanProperties rest externalId name

/-- Embeds the component scan (utils.go:218-232): find the first component
whose `ComponentTypeId` equals the query's component type id, scan its
properties, and `break` out of the outer loop regardless of the inner
outcome; if no component matches the type the name stays empty. -/
def findComponentName : List Component → String → String → String
  | [], _, _ => ""
  | c :: rest, componentTypeId, externalId =>
    if c.componentTypeId = componentTypeId then
      scanProperties c.properties externalId c.componentName
    else findComponentName rest componentTypeId externalId

/-- Embeds one iteration of the resolver loop (utils.go:177-246) as a fold
step over the state `(query, propertyReferences, failures)`: extract the
external id; rebuild the query for the catalog search (utils.go:186-194,
the four field assignments); call `ListEntities`, recording a warning Notice
on error (utils.go:195-203); if the response carries at least one entity
summary, take the first one, set the query's entity id, call `GetEntity`
(recording a warning Notice on error, utils.go:210-217), scan the components
for the component name, and append the rebuilt `PropertyReference`
(utils.go:206-245). -/
def processBatch {V : Type} (client : TwinMakerClient V) (componentTypeId : String)
    (st : TwinMakerQuery × List (PropertyReference V) × List Notice)
    (propertyValue : PropertyValueBatch V) :
    TwinMakerQuery × List (PropertyReference V) × List Notice :=
  let (query, propertyReferences, failures) := st
  let externalId := extractExternalId propertyValue.entityPropertyReference.externalIdProperty
  let query : TwinMakerQuery :=
    { query with
      entityId := ""
      properties := []
      componentTypeId := ""
      listEntitiesFilter := [{ externalId := externalId }] }
  let (le, err) := client.listEntities query
  let failures := match err with
    | some e => failures ++ [{ severity := NoticeSeverity.warning, text := e }]
    | none => failures
  match le.entitySummaries with
  | [] => (query, propertyReferences, failures)
  | summary :: _ =>
    let entityId := summary.entityId
    let entityName := summary.entityName
    let query := { query with entityId := entityId }
    let (e, err2) := client.getEntity query
    let failures := match err2 with
      | some m => failures ++ [{ severity := NoticeSeverity.warning, text := m }]
      | none => failures
    let componentName := findComponentName e.components componentTypeId externalId
    let pr : PropertyReference V :=
      { values := propertyValue.values
        entityPropertyReference :=
          { entityId := some entityId
            componentName := some componentName
            externalIdProperty := propertyValue.entityPropertyReference.externalIdProperty
            propertyName := propertyValue.entityPropertyReference.propertyName }
        entityName := entityName }
    (query, propertyReferences ++ [pr], failures)

/-- Embeds `GetComponentHistoryWithLookup` (utils.go:164-249): save the
query's component type id, call `GetPropertyValueHistory` and return
immediately with empty results on error (utils.go:170-173); otherwise fold
the per-batch resolution over every property-value batch and return the
accumulated references, notices, and a nil error. -/
def GetComponentHistoryWithLookup {V : Type} (client : TwinMakerClient V)
    (query : TwinMakerQuery) :
    List (PropertyReference V) × List Notice × Option String :=
  let propertyReferences : List (PropertyReference V) := []
  let failures : List Notice := []
  let componentTypeId := query.componentTypeId
  let (result, err) := client.getPropertyValueHistory query
  match err with
  | some e => (propertyReferences, failures, some e)
  | none =>
    let (_, refs, fails) :=
      result.propertyValues.foldl (processBatch client componentTypeId)
        (query, propertyReferences, failures)
    (refs, fails, none)

/-- Embeds `iottwinmaker.GetWorkspaceOutput` as used by `LoadPolicy`: the
three pointer fields placed into the template data map. -/
structure GetWorkspaceOutput where
  s3Location : Option String
  arn : Option String
  workspaceId : Option String
deriving DecidableEq, Repr

/-- Embeds `LoadPolicy` (utils.go:27-112). The fixed policy template literal
and the Go standard-library collaborators are outside this repository, so the
template text, `json.Compact`, and the `text/template` substitution step are
parameters: `LoadPolicy` first compacts the template's whitespace, returning
`("", err)` on a compaction error (utils.go:96-101); then runs template
substitution on the compacted text with the workspace data, returning
`("", err)` on a substitution error (utils.go:106-109); otherwise it returns
the substituted document and no error (utils.go:111). The `template.Must(...
Parse(...))` step cannot return an error (it would panic, and the literal is
fixed), so parsing is folded into the substitution parameter. -/
def LoadPolicy (policyTemplate : String)
    (jsonCompact : String → Except String String)
    (templateExecute : String → GetWorkspaceOutput → Except String String)
    (workspace : GetWorkspaceOutput) : String × Option String :=
  match jsonCompact policyTemplate with
  | Except.error e => ("", some e)
  | Except.ok compacted =>
    match templateExecute compacted workspace with
    | Except.error e => ("", some e)
    | Except.ok s => (s, none)

/-! Concrete data for the end-to-end scenario of claim C3. -/

/-- The single history batch of the C3 scenario: external id `"ext-42"`,
property name `"temperature"`, opaque payload `[7]`. -/
def c3batch : PropertyValueBatch Nat :=
  { values := [7]
    entityPropertyReference :=
      { entityId := none
        componentName := none
        externalIdProperty := [("sid", "ext-42")]
        propertyName := some "temperature" } }

/-- The client of the C3 scenario: history returns `c3batch`; the catalog
search answers the `"ext-42"` filter with entity `"e1"` named `"Boiler"`; the
entity-detail call for `"e1"` returns one component `"tempSensor"` of type
`"matchingType"` whose external-id-flagged property has value `"ext-42"`. -/
def c3client : TwinMakerClient Nat :=
  { getPropertyValueHistory := fun _ => ({ propertyValues := [c3batch] }, none)
    listEntities := fun q =>
      if q.listEntitiesFilter = [{ externalId := "ext-42" }] then
        ({ entitySummaries := [{ entityId := "e1", entityName := some "Boiler" }] }, none)
      else ({ entitySummaries := [] }, none)
    getEntity := fun q =>
      if q.entityId = "e1" then
        ({ components := [{ componentName := "tempSensor"
                            componentTypeId := "matchingType"
                            properties := [{ definitionIsExternalId := true
                                             valueStringValue := "ext-42" }] }] }, none)
      else ({ components := [] }, none) }

/-- C2: if the initial history fetch returns an error, the resolver returns
an empty resolved sequence, an empty Notice sequence, and that original
error, with no partial results. -/
theorem getComponentHistory_history_error {V : Type} (client : TwinMakerClient V)
    (query : TwinMakerQuery) (r : GetPropertyValueHistoryOutput V) (e : String)
    (h : client.getPropertyValueHistory query = (r, some e)) :
    GetComponentHistoryWithLookup client query = ([], [], some e) := by
  simp [GetComponentHistoryWithLookup, h]

/-- The client of the C2 witness: the history fetch fails with `"boom"`. -/
def c2client : TwinMakerClient Nat :=
  { getPropertyValueHistory := fun _ => ({ propertyValues := [] }, some "boom")
    listEntities := fun _ => ({ entitySummaries := [] }, none)
    getEntity := fun _ => ({ components := [] }, none) }

/-- Witness for C2 at a concrete client whose history fetch fails with
`"boom"`. -/
theorem getComponentHistory_history_error_witness :
    GetComponentHistoryWithLookup c2client
      { entityId := "", componentTypeId := "ct", properties := [], listEntitiesFilter := [] } =
      ([], [], some "boom") :=
  getComponentHistory_history_error c2client
    { entityId := "", componentTypeId := "ct", properties := [], listEntitiesFilter := [] }
    { propertyValues := [] } "boom" rfl

/-- C10: if the history fetch succeeds with zero batches, the resolver
returns an empty resolved sequence, an empty Notice sequence, and no error —
for every possible behaviour of the catalog search and entity-detail
operations, so neither is consulted. -/
theorem getComponentHistory_empty_history {V : Type} (client : TwinMakerClient V)
    (query : TwinMakerQuery)
    (h : client.getPropertyValueHistory query = ({ propertyValues := [] }, none)) :
    GetComponentHistoryWithLookup client query = ([], [], none) := by
  simp [GetComponentHistoryWithLookup, h]

/-- The client of the C10 witness: the history fetch succeeds with zero
batches while search and detail would return junk if they were consulted. -/
def c10client : TwinMakerClient Nat :=
  { getPropertyValueHistory := fun _ => ({ propertyValues := [] }, none)
    listEntities := fun _ =>
      ({ entitySummaries := [{ entityId := "junk", entityName := none }] }, some "junk")
    getEntity := fun _ => ({ components := [] }, some "junk") }

/-- Witness for C10 at a concrete client returning zero batches. -/
theorem getComponentHistory_empty_history_witness :
    GetComponentHistoryWithLookup c10client
      { entityId := "", componentTypeId := "ct", properties := [], listEntitiesFilter := [] } =
      ([], [], none) :=
  getComponentHistory_empty_history c10client
    { entityId := "", componentTypeId := "ct", properties := [], listEntitiesFilter := [] }
    rfl

/-- C3: the end-to-end scenario — one batch with external id `"ext-42"` and
property name `"temperature"`, catalog search returning entity `"e1"` named
`"Boiler"`, entity detail returning component `"tempSensor"` of the matching
type whose external-id-flagged property equals `"ext-42"` — yields exactly one
resolved reference with entity id `"e1"`, component name `"tempSensor"`,
entity name `"Boiler"`, property name `"temperature"`, zero Notices, and no
error. -/
theorem getComponentHistory_end_to_end :
    GetComponentHistoryWithLookup c3client
      { entityId := "", componentTypeId := "matchingType", properties := [],
        listEntitiesFilter := [] } =
      ([{ values := [7]
          entityPropertyReference :=
            { entityId := some "e1"
              componentName := some "tempSensor"
              externalIdProperty := [("sid", "ext-42")]
              propertyName := some "temperature" }
          entityName := some "Boiler" }], [], none) := by
  rfl

/-- C8: the external-id extraction returns the empty string on an empty
mapping, and on a mapping with two or more entries it returns the value of
the first entry in iteration order (deterministically, being a function of
the ordered mapping). -/
theorem extractExternalId_first_entry :
    extractExternalId [] = "" ∧
    ∀ (k v k' v' : String) (rest : List (String × String)),
      extractExternalId ((k, v) :: (k', v') :: rest) = v :=
  ⟨rfl, fun _ _ _ _ _ => rfl⟩

/-- C1: with three batches where the catalog search fails (with empty
summaries) for the second batch only, the resolver records exactly one
warning Notice carrying that error's message, does not attempt the
entity-detail step for that batch (its conclusion is independent of
`getEntity` at any entity id of batch 2), and still resolves batches 1 and 3
in input order. -/
theorem getComponentHistory_search_failure_skips_batch {V : Type}
    (client : TwinMakerClient V) (q0 : TwinMakerQuery)
    (b1 b2 b3 : PropertyValueBatch V) (x1 x2 x3 msg : String)
    (s1 s3 : EntitySummary) (comps1 comps3 : List Component)
    (hx1 : extractExternalId b1.entityPropertyReference.externalIdProperty = x1)
    (hx2 : extractExternalId b2.entityPropertyReference.externalIdProperty = x2)
    (hx3 : extractExternalId b3.entityPropertyReference.externalIdProperty = x3)
    (hh : client.getPropertyValueHistory q0 = ({ propertyValues := [b1, b2, b3] }, none))
    (hl1 : client.listEntities
      { entityId := "", componentTypeId := "", properties := [],
        listEntitiesFilter := [{ externalId := x1 }] } =
      ({ entitySummaries := [s1] }, none))
    (hl2 : client.listEntities
      { entityId := "", componentTypeId := "", properties := [],
        listEntitiesFilter := [{ externalId := x2 }] } =
      ({ entitySummaries := [] }, some msg))
    (hl3 : client.listEntities
      { entityId := "", componentTypeId := "", properties := [],
        listEntitiesFilter := [{ externalId := x3 }] } =
      ({ entitySummaries := [s3] }, none))
    (hg1 : client.getEntity
      { entityId := s1.entityId, componentTypeId := "", properties := [],
        listEntitiesFilter := [{ externalId := x1 }] } =
      ({ components := comps1 }, none))
    (hg3 : client.getEntity
      { entityId := s3.entityId, componentTypeId := "", properties := [],
        listEntitiesFilter := [{ externalId := x3 }] } =
      ({ components := comps3 }, none)) :
    GetComponentHistoryWithLookup client q0 =
      ([{ values := b1.values
          entityPropertyReference :=
            { entityId := some s1.entityId
              componentName := some (findComponentName comps1 q0.componentTypeId x1)
              externalIdProperty := b1.entityPropertyReference.externalIdProperty
              propertyName := b1.entityPropertyReference.propertyName }
          entityName := s1.entityName },
        { values := b3.values
          entityPropertyReference :=
            { entityId := some s3.entityId
              componentName := some (findComponentName comps3 q0.componentTypeId x3)
              externalIdProperty := b3.entityPropertyReference.externalIdProperty
              propertyName := b3.entityPropertyReference.propertyName }
          entityName := s3.entityName }],
       [{ severity := NoticeSeverity.warning, text := msg }], none) := by
  simp [GetComponentHistoryWithLookup, processBatch, hh, hx1, hx2, hx3,
    hl1, hl2, hl3, hg1, hg3]

/-- A history batch for witness scenarios: payload `[i]`, external id `x`,
property name `"p"`. -/
def wbatch (i : Nat) (x : String) : PropertyValueBatch Nat :=
  { values := [i]
    entityPropertyReference :=
      { entityId := none
        componentName := none
        externalIdProperty := [("k", x)]
        propertyName := some "p" } }

/-- The client of the C1 witness: three batches with external ids `"x1"`,
`"x2"`, `"x3"`; the catalog search fails with `"search failed"` for `"x2"`
and succeeds for the others; entity detail always succeeds with no
components. -/
def c1client : TwinMakerClient Nat :=
  { getPropertyValueHistory := fun _ =>
      ({ propertyValues := [wbatch 1 "x1", wbatch 2 "x2", wbatch 3 "x3"] }, none)
    listEntities := fun q =>
      if q.listEntitiesFilter = [{ externalId := "x1" }] then
        ({ entitySummaries := [{ entityId := "e1", entityName := some "n1" }] }, none)
      else if q.listEntitiesFilter = [{ externalId := "x2" }] then
        ({ entitySummaries := [] }, some "search failed")
      else
        ({ entitySummaries := [{ entityId := "e3", entityName := some "n3" }] }, none)
    getEntity := fun _ => ({ components := [] }, none) }

/-- Witness for C1 at a concrete client: batches 1 and 3 resolve in order and
the batch-2 search failure yields exactly one warning Notice. -/
theorem getComponentHistory_search_failure_skips_batch_witness :
    GetComponentHistoryWithLookup c1client
      { entityId := "", componentTypeId := "ct", properties := [],
        listEntitiesFilter := [] } =
      ([{ values := [1]
          entityPropertyReference :=
            { entityId := some "e1"
              componentName := some ""
              externalIdProperty := [("k", "x1")]
              propertyName := some "p" }
          entityName := some "n1" },
        { values := [3]
          entityPropertyReference :=
            { entityId := some "e3"
              componentName := some ""
              externalIdProperty := [("k", "x3")]
              propertyName := some "p" }
          entityName := some "n3" }],
       [{ severity := NoticeSeverity.warning, text := "search failed" }], none) :=
  getComponentHistory_search_failure_skips_batch c1client
    { entityId := "", componentTypeId := "ct", properties := [],
      listEntitiesFilter := [] }
    (wbatch 1 "x1") (wbatch 2 "x2") (wbatch 3 "x3") "x1" "x2" "x3" "search failed"
    { entityId := "e1", entityName := some "n1" }
    { entityId := "e3", entityName := some "n3" } [] []
    rfl rfl rfl rfl rfl rfl rfl rfl rfl

/-- C6: when the catalog search succeeds but returns zero entity summaries
for a batch, that batch contributes neither a resolved reference nor a
Notice, and the remaining batches are still processed (here the second batch
still resolves). -/
theorem getComponentHistory_zero_summaries_silent_skip {V : Type}
    (client : TwinMakerClient V) (q0 : TwinMakerQuery)
    (b1 b2 : PropertyValueBatch V) (x1 x2 : String)
    (s2 : EntitySummary) (comps2 : List Component)
    (hx1 : extractExternalId b1.entityPropertyReference.externalIdProperty = x1)
    (hx2 : extractExternalId b2.entityPropertyReference.externalIdProperty = x2)
    (hh : client.getPropertyValueHistory q0 = ({ propertyValues := [b1, b2] }, none))
    (hl1 : client.listEntities
      { entityId := "", componentTypeId := "", properties := [],
        listEntitiesFilter := [{ externalId := x1 }] } =
      ({ entitySummaries := [] }, none))
    (hl2 : client.listEntities
      { entityId := "", componentTypeId := "", properties := [],
        listEntitiesFilter := [{ externalId := x2 }] } =
      ({ entitySummaries := [s2] }, none))
    (hg2 : client.getEntity
      { entityId := s2.entityId, componentTypeId := "", properties := [],
        listEntitiesFilter := [{ externalId := x2 }] } =
      ({ components := comps2 }, none)) :
    GetComponentHistoryWithLookup client q0 =
      ([{ values := b2.values
          entityPropertyReference :=
            { entityId := some s2.entityId
              componentName := some (findComponentName comps2 q0.componentTypeId x2)
              externalIdProperty := b2.entityPropertyReference.externalIdProperty
              propertyName := b2.entityPropertyReference.propertyName }
          entityName := s2.entityName }], [], none) := by
  simp [GetComponentHistoryWithLookup, processBatch, hh, hx1, hx2, hl1, hl2, hg2]

/-- The client of the C6 witness: the search for `"x1"` succeeds with zero
summaries; the search for `"x2"` finds entity `"e2"`. -/
def c6client : TwinMakerClient Nat :=
  { getPropertyValueHistory := fun _ =>
      ({ propertyValues := [wbatch 1 "x1", wbatch 2 "x2"] }, none)
    listEntities := fun q =>
      if q.listEntitiesFilter = [{ externalId := "x2" }] then
        ({ entitySummaries := [{ entityId := "e2", entityName := some "n2" }] }, none)
      else ({ entitySummaries := [] }, none)
    getEntity := fun _ => ({ components := [] }, none) }

/-- Witness for C6 at a concrete client: the zero-summary batch is silently
skipped while the second batch still resolves. -/
theorem getComponentHistory_zero_summaries_silent_skip_witness :
    GetComponentHistoryWithLookup c6client
      { entityId := "", componentTypeId := "ct", properties := [],
        listEntitiesFilter := [] } =
      ([{ values := [2]
          entityPropertyReference :=
            { entityId := some "e2"
              componentName := some ""
              externalIdProperty := [("k", "x2")]
              propertyName := some "p" }
          entityName := some "n2" }], [], none) :=
  getComponentHistory_zero_summaries_silent_skip c6client
    { entityId := "", componentTypeId := "ct", properties := [],
      listEntitiesFilter := [] }
    (wbatch 1 "x1") (wbatch 2 "x2") "x1" "x2"
    { entityId := "e2", entityName := some "n2" } []
    rfl rfl rfl rfl rfl rfl

/-- The inner property scan agrees with a first-match search: it yields the
accumulated name exactly when some property is flagged as external id with a
matching string value, and the empty string otherwise. -/
theorem scanProperties_eq_find (props : List ComponentProperty) (ext name : String) :
    scanProperties props ext name =
      match props.find? (fun p => p.definitionIsExternalId && (p.valueStringValue == ext)) with
      | none => ""
      | some _ => name := by
  induction props with
  | nil => rfl
  | cons p rest ih =>
    cases hb : p.definitionIsExternalId with
    | false => simp [scanProperties, List.find?, hb, ih]
    | true =>
      by_cases hv : p.valueStringValue = ext
      · simp [scanProperties, List.find?, hb, hv]
      · have hv' : (p.valueStringValue == ext) = false := beq_eq_false_iff_ne.mpr hv
        simp [scanProperties, List.find?, hb, hv, hv', ih]

/-- The component scan agrees with a first-match search on the component type
id followed by the inner property scan of the matched component. -/
theorem findComponentName_eq_find (comps : List Component) (ctid ext : String) :
    findComponentName comps ctid ext =
      match comps.find? (fun c => c.componentTypeId == ctid) with
      | none => ""
      | some c => scanProperties c.properties ext c.componentName := by
  induction comps with
  | nil => rfl
  | cons c rest ih =>
    by_cases h : c.componentTypeId = ctid
    · simp [findComponentName, List.find?, h]
    · have h' : (c.componentTypeId == ctid) = false := beq_eq_false_iff_ne.mpr h
      simp [findComponentName, List.find?, h, h', ih]

/-- C4: in a single-batch scenario whose entity-detail fetch succeeds, the
appended reference's component name is `findComponentName` of the returned
components, with no Notice; and `findComponentName` is exactly the scan the
claim describes: the first component whose type id equals the query's
component type id is selected, and within it the first property flagged as
external id whose string value equals the extracted external id yields that
component's name, while a missing type match or a missing flagged/matching
property yields the empty string. -/
theorem getComponentHistory_component_scan {V : Type}
    (client : TwinMakerClient V) (q0 : TwinMakerQuery)
    (b : PropertyValueBatch V) (x : String) (s : EntitySummary) (comps : List Component)
    (hx : extractExternalId b.entityPropertyReference.externalIdProperty = x)
    (hh : client.getPropertyValueHistory q0 = ({ propertyValues := [b] }, none))
    (hl : client.listEntities
      { entityId := "", componentTypeId := "", properties := [],
        listEntitiesFilter := [{ externalId := x }] } =
      ({ entitySummaries := [s] }, none))
    (hg : client.getEntity
      { entityId := s.entityId, componentTypeId := "", properties := [],
        listEntitiesFilter := [{ externalId := x }] } =
      ({ components := comps }, none)) :
    (GetComponentHistoryWithLookup client q0 =
      ([{ values := b.values
          entityPropertyReference :=
            { entityId := some s.entityId
              componentName := some (findComponentName comps q0.componentTypeId x)
              externalIdProperty := b.entityPropertyReference.externalIdProperty
              propertyName := b.entityPropertyReference.propertyName }
          entityName := s.entityName }], [], none)) ∧
    (∀ c, comps.find? (fun k => k.componentTypeId == q0.componentTypeId) = some c →
      (∀ pr, c.properties.find?
          (fun p => p.definitionIsExternalId && (p.valueStringValue == x)) = some pr →
        findComponentName comps q0.componentTypeId x = c.componentName) ∧
      (c.properties.find?
          (fun p => p.definitionIsExternalId && (p.valueStringValue == x)) = none →
        findComponentName comps q0.componentTypeId x = "")) ∧
    (comps.find? (fun k => k.componentTypeId == q0.componentTypeId) = none →
      findComponentName comps q0.componentTypeId x = "") := by
  refine ⟨?_, ?_, ?_⟩
  · simp [GetComponentHistoryWithLookup, processBatch, hh, hx, hl, hg]
  · intro c hc
    have hfc : findComponentName comps q0.componentTypeId x =
        scanProperties c.properties x c.componentName := by
      rw [findComponentName_eq_find, hc]
    refine ⟨?_, ?_⟩
    · intro pr hp
      rw [hfc, scanProperties_eq_find, hp]
    · intro hp
      rw [hfc, scanProperties_eq_find, hp]
  · intro hc
    rw [findComponentName_eq_find, hc]

/-- The client of the C4 witness: one batch with external id `"x1"`, one
summary `"e1"`, and a detail response whose only component has a different
type id, so the scan yields the empty component name. -/
def c4client : TwinMakerClient Nat :=
  { getPropertyValueHistory := fun _ => ({ propertyValues := [wbatch 4 "x1"] }, none)
    listEntities := fun q =>
      if q.listEntitiesFilter = [{ externalId := "x1" }] then
        ({ entitySummaries := [{ entityId := "e1", entityName := some "n1" }] }, none)
      else ({ entitySummaries := [] }, none)
    getEntity := fun _ =>
      ({ components := [{ componentName := "compA"
                          componentTypeId := "otherType"
                          properties := [] }] }, none) }

/-- Witness for C4 at a concrete client whose detail response has no
type-matching component: the reference is still appended, with the empty
component name and no Notice. -/
theorem getComponentHistory_component_scan_witness :
    GetComponentHistoryWithLookup c4client
      { entityId := "", componentTypeId := "ct", properties := [],
        listEntitiesFilter := [] } =
      ([{ values := [4]
          entityPropertyReference :=
            { entityId := some "e1"
              componentName := some ""
              externalIdProperty := [("k", "x1")]
              propertyName := some "p" }
          entityName := some "n1" }], [], none) :=
  (getComponentHistory_component_scan c4client
    { entityId := "", componentTypeId := "ct", properties := [],
      listEntitiesFilter := [] }
    (wbatch 4 "x1") "x1" { entityId := "e1", entityName := some "n1" }
    [{ componentName := "compA", componentTypeId := "otherType", properties := [] }]
    rfl rfl rfl rfl).1

/-- The client of the C5 scenario: one batch with external id `"xc"`; the
catalog search finds entity `"e1"` named `"EN"`; the detail response's only
component has a non-matching type id, so no component matches. -/
def c5client : TwinMakerClient Nat :=
  { getPropertyValueHistory := fun _ => ({ propertyValues := [wbatch 5 "xc"] }, none)
    listEntities := fun q =>
      if q.listEntitiesFilter = [{ externalId := "xc" }] then
        ({ entitySummaries := [{ entityId := "e1", entityName := some "EN" }] }, none)
      else ({ entitySummaries := [] }, none)
    getEntity := fun _ =>
      ({ components := [{ componentName := "compA"
                          componentTypeId := "otherType"
                          properties := [] }] }, none) }

/-- Counterexample to C5's final clause: in the C5 scenario no component
matches the query's type (the scan yields the empty name), yet the batch is
not dropped — the resolver appends a reference with the empty component
name. -/
theorem getComponentHistory_no_match_not_dropped_cex :
    findComponentName
      [{ componentName := "compA", componentTypeId := "otherType", properties := [] }]
      "ct" "xc" = "" ∧
    GetComponentHistoryWithLookup c5client
      { entityId := "", componentTypeId := "ct", properties := [],
        listEntitiesFilter := [] } =
      ([{ values := [5]
          entityPropertyReference :=
            { entityId := some "e1"
              componentName := some ""
              externalIdProperty := [("k", "xc")]
              propertyName := some "p" }
          entityName := some "EN" }], [], none) ∧
    (GetComponentHistoryWithLookup c5client
      { entityId := "", componentTypeId := "ct", properties := [],
        listEntitiesFilter := [] }).1 ≠ [] := by
  refine ⟨rfl, rfl, ?_⟩
  decide

/-- C5 as amended: each appended reference takes its entity id from the first
entity summary of the catalog search, its component name from the component
scan, its external-id mapping and property name from the original batch's
reference, and its entity name from that summary; when no component matches,
the reference is still appended with the empty component name rather than
dropped. -/
theorem getComponentHistory_provenance {V : Type}
    (client : TwinMakerClient V) (q0 : TwinMakerQuery)
    (b : PropertyValueBatch V) (x : String) (s : EntitySummary)
    (rest : List EntitySummary) (comps : List Component)
    (hx : extractExternalId b.entityPropertyReference.externalIdProperty = x)
    (hh : client.getPropertyValueHistory q0 = ({ propertyValues := [b] }, none))
    (hl : client.listEntities
      { entityId := "", componentTypeId := "", properties := [],
        listEntitiesFilter := [{ externalId := x }] } =
      ({ entitySummaries := s :: rest }, none))
    (hg : client.getEntity
      { entityId := s.entityId, componentTypeId := "", properties := [],
        listEntitiesFilter := [{ externalId := x }] } =
      ({ components := comps }, none)) :
    GetComponentHistoryWithLookup client q0 =
      ([{ values := b.values
          entityPropertyReference :=
            { entityId := some s.entityId
              componentName := some (findComponentName comps q0.componentTypeId x)
              externalIdProperty := b.entityPropertyReference.externalIdProperty
              propertyName := b.entityPropertyReference.propertyName }
          entityName := s.entityName }], [], none) := by
  simp [GetComponentHistoryWithLookup, processBatch, hh, hx, hl, hg]

/-- Witness for the amended C5 at a concrete client with no matching
component: the reference is appended with the empty component name, entity
id `"e1"`, entity name `"EN"`, and the batch's mapping and property name. -/
theorem getComponentHistory_provenance_witness :
    GetComponentHistoryWithLookup c5client
      { entityId := "", componentTypeId := "ct", properties := [],
        listEntitiesFilter := [] } =
      ([{ values := [5]
          entityPropertyReference :=
            { entityId := some "e1"
              componentName := some ""
              externalIdProperty := [("k", "xc")]
              propertyName := some "p" }
          entityName := some "EN" }], [], none) :=
  getComponentHistory_provenance c5client
    { entityId := "", componentTypeId := "ct", properties := [],
      listEntitiesFilter := [] }
    (wbatch 5 "xc") "xc" { entityId := "e1", entityName := some "EN" } []
    [{ componentName := "compA", componentTypeId := "otherType", properties := [] }]
    rfl rfl rfl rfl

/-- Counterexample to C7: two references whose four fields are all non-empty
and pairwise distinct, differing in entity id (and component name), yet with
equal composite keys, because an underscore inside a field value realigns the
separators (`"a_b" + "_" + "c"` versus `"a" + "_" + "b_c"`). -/
theorem key_collision_counterexample :
    GetEntityPropertyReferenceKey
      { entityId := some "a_b", componentName := some "c",
        externalIdProperty := [("k", "x")], propertyName := some "y" } =
    GetEntityPropertyReferenceKey
      { entityId := some "a", componentName := some "b_c",
        externalIdProperty := [("k", "x")], propertyName := some "y" } ∧
    ("a_b" : String) ≠ "a" ∧
    extractExternalId [("k", "x")] = "x" ∧
    (("a_b" : String) ≠ "" ∧ ("c" : String) ≠ "" ∧ ("x" : String) ≠ "" ∧
      ("y" : String) ≠ "" ∧ ("a_b" : String) ≠ "c" ∧ ("a_b" : String) ≠ "x" ∧
      ("a_b" : String) ≠ "y" ∧ ("c" : String) ≠ "x" ∧ ("c" : String) ≠ "y" ∧
      ("x" : String) ≠ "y") ∧
    (("a" : String) ≠ "" ∧ ("b_c" : String) ≠ "" ∧ ("a" : String) ≠ "b_c" ∧
      ("a" : String) ≠ "x" ∧ ("a" : String) ≠ "y" ∧ ("b_c" : String) ≠ "x" ∧
      ("b_c" : String) ≠ "y") := by
  decide

/-- Splitting a separator-terminated segment off a character list is
unambiguous when neither candidate segment contains the separator. -/
theorem sep_append_inj (a : List Char) : ∀ (b r r' : List Char),
    '_' ∉ a → '_' ∉ b → a ++ '_' :: r = b ++ '_' :: r' → a = b ∧ r = r' := by
  induction a with
  | nil =>
    intro b r r' _ hb h
    cases b with
    | nil => simpa using h
    | cons y ys =>
      simp only [List.nil_append, List.cons_append, List.cons.injEq] at h
      refine absurd ?_ hb
      rw [← h.1]
      exact List.mem_cons_self _ _
  | cons z zs ih =>
    intro b r r' ha hb h
    cases b with
    | nil =>
      simp only [List.nil_append, List.cons_append, List.cons.injEq] at h
      refine absurd ?_ ha
      rw [h.1]
      exact List.mem_cons_self _ _
    | cons y ys =>
      simp only [List.cons_append, List.cons.injEq] at h
      obtain ⟨h1, h2⟩ := h
      have ha' : '_' ∉ zs := fun hm => ha (List.mem_cons_of_mem _ hm)
      have hb' : '_' ∉ ys := fun hm => hb (List.mem_cons_of_mem _ hm)
      obtain ⟨e1, e2⟩ := ih ys r r' ha' hb' h2
      exact ⟨by rw [h1, e1], e2⟩

/-- With all four fields present, the composite key's character list is the
four field segments joined by single separators. -/
theorem key_data_of_fields (r : EntityPropertyReference) (e c x p : String)
    (he : r.entityId = some e) (hc : r.componentName = some c)
    (hx : extractExternalId r.externalIdProperty = x) (hp : r.propertyName = some p) :
    (GetEntityPropertyReferenceKey r).data =
      e.data ++ '_' :: (c.data ++ '_' :: (x.data ++ '_' :: p.data)) := by
  have hsep : ("_" : String).data = ['_'] := rfl
  have hnil : ("" : String).data = [] := rfl
  simp [GetEntityPropertyReferenceKey, he, hc, hx, hp, String.data_append, hsep, hnil]

/-- C7 as amended: for references with all four fields set to non-empty,
pairwise-distinct strings none of which contains the separator character
`'_'`, the composite key is deterministic (equal inputs give equal keys) and
injective — equal keys force all four fields to agree, so any difference in a
field yields different keys. -/
theorem key_deterministic_injective (r1 r2 : EntityPropertyReference)
    (e1 c1 x1 p1 e2 c2 x2 p2 : String)
    (he1 : r1.entityId = some e1) (hc1 : r1.componentName = some c1)
    (hx1 : extractExternalId r1.externalIdProperty = x1)
    (hp1 : r1.propertyName = some p1)
    (he2 : r2.entityId = some e2) (hc2 : r2.componentName = some c2)
    (hx2 : extractExternalId r2.externalIdProperty = x2)
    (hp2 : r2.propertyName = some p2)
    (_hone1 : e1 ≠ "" ∧ c1 ≠ "" ∧ x1 ≠ "" ∧ p1 ≠ "")
    (_hdist1 : e1 ≠ c1 ∧ e1 ≠ x1 ∧ e1 ≠ p1 ∧ c1 ≠ x1 ∧ c1 ≠ p1 ∧ x1 ≠ p1)
    (_hone2 : e2 ≠ "" ∧ c2 ≠ "" ∧ x2 ≠ "" ∧ p2 ≠ "")
    (_hdist2 : e2 ≠ c2 ∧ e2 ≠ x2 ∧ e2 ≠ p2 ∧ c2 ≠ x2 ∧ c2 ≠ p2 ∧ x2 ≠ p2)
    (hsep1 : '_' ∉ e1.data ∧ '_' ∉ c1.data ∧ '_' ∉ x1.data ∧ '_' ∉ p1.data)
    (hsep2 : '_' ∉ e2.data ∧ '_' ∉ c2.data ∧ '_' ∉ x2.data ∧ '_' ∉ p2.data) :
    (r1 = r2 →
      GetEntityPropertyReferenceKey r1 = GetEntityPropertyReferenceKey r2) ∧
    (GetEntityPropertyReferenceKey r1 = GetEntityPropertyReferenceKey r2 →
      e1 = e2 ∧ c1 = c2 ∧ x1 = x2 ∧ p1 = p2) := by
  constructor
  · intro h
    rw [h]
  · intro hk
    have hd := congrArg String.data hk
    rw [key_data_of_fields r1 e1 c1 x1 p1 he1 hc1 hx1 hp1,
        key_data_of_fields r2 e2 c2 x2 p2 he2 hc2 hx2 hp2] at hd
    obtain ⟨q1, hd⟩ := sep_append_inj e1.data e2.data _ _ hsep1.1 hsep2.1 hd
    obtain ⟨q2, hd⟩ := sep_append_inj c1.data c2.data _ _ hsep1.2.1 hsep2.2.1 hd
    obtain ⟨q3, q4⟩ := sep_append_inj x1.data x2.data _ _ hsep1.2.2.1 hsep2.2.2.1 hd
    exact ⟨String.ext q1, String.ext q2, String.ext q3, String.ext q4⟩

/-- Witness for the amended C7 at two concrete references with non-empty,
pairwise-distinct, separator-free fields. -/
theorem key_deterministic_injective_witness :
    ((⟨some "a", some "b", [("k", "c")], some "d"⟩ : EntityPropertyReference) =
      (⟨some "w", some "v", [("k", "u")], some "t"⟩ : EntityPropertyReference) →
      GetEntityPropertyReferenceKey ⟨some "a", some "b", [("k", "c")], some "d"⟩ =
        GetEntityPropertyReferenceKey ⟨some "w", some "v", [("k", "u")], some "t"⟩) ∧
    (GetEntityPropertyReferenceKey ⟨some "a", some "b", [("k", "c")], some "d"⟩ =
        GetEntityPropertyReferenceKey ⟨some "w", some "v", [("k", "u")], some "t"⟩ →
      ("a" : String) = "w" ∧ ("b" : String) = "v" ∧ ("c" : String) = "u" ∧
        ("d" : String) = "t") :=
  key_deterministic_injective
    ⟨some "a", some "b", [("k", "c")], some "d"⟩
    ⟨some "w", some "v", [("k", "u")], some "t"⟩
    "a" "b" "c" "d" "w" "v" "u" "t"
    rfl rfl rfl rfl rfl rfl rfl rfl
    (by decide) (by decide) (by decide) (by decide) (by decide) (by decide)

/-- C9: `LoadPolicy` runs template substitution on the whitespace-compacted
template (substitution always receives the compaction's output), and a
substitution error is propagated as the empty string together with that
error rather than a policy document; a successful substitution of the
compacted template is what is returned. -/
theorem loadPolicy_compacts_then_propagates (policyTemplate compacted : String)
    (jsonCompact : String → Except String String)
    (templateExecute : String → GetWorkspaceOutput → Except String String)
    (workspace : GetWorkspaceOutput)
    (hc : jsonCompact policyTemplate = Except.ok compacted) :
    (∀ e, templateExecute compacted workspace = Except.error e →
      LoadPolicy policyTemplate jsonCompact templateExecute workspace = ("", some e)) ∧
    (∀ doc, templateExecute compacted workspace = Except.ok doc →
      LoadPolicy policyTemplate jsonCompact templateExecute workspace = (doc, none)) := by
  constructor
  · intro e he
    simp [LoadPolicy, hc, he]
  · intro doc hdoc
    simp [LoadPolicy, hc, hdoc]

/-- Witness for C9 at concrete collaborators: a substitution that fails with
`"malformed template"` makes `LoadPolicy` return the empty string and that
error, and a substitution that succeeds returns the substituted document. -/
theorem loadPolicy_compacts_then_propagates_witness :
    (LoadPolicy " [ 1 ] " (fun _ => Except.ok "[1]")
      (fun _ _ => Except.error "malformed template")
      { s3Location := some "s3", arn := some "arn", workspaceId := some "w" } =
      ("", some "malformed template")) ∧
    (LoadPolicy " [ 1 ] " (fun _ => Except.ok "[1]")
      (fun s _ => Except.ok s)
      { s3Location := some "s3", arn := some "arn", workspaceId := some "w" } =
      ("[1]", none)) :=
  ⟨(loadPolicy_compacts_then_propagates " [ 1 ] " "[1]" (fun _ => Except.ok "[1]")
      (fun _ _ => Except.error "malformed template")
      { s3Location := some "s3", arn := some "arn", workspaceId := some "w" }
      rfl).1 "malformed template" rfl,
   (loadPolicy_compacts_then_propagates " [ 1 ] " "[1]" (fun _ => Except.ok "[1]")
      (fun s _ => Except.ok s)
      { s3Location := some "s3", arn := some "arn", workspaceId := some "w" }
      rfl).2 "[1]" rfl⟩

end TwinMaker

